import Mathlib

/-!
Shallow embedding of the order/payment reconciliation core of the
agentics-hackathon-mcp repository (order-service).

Sources embedded here:
  - src/order-service/src/paymentsClient.ts : the payment gateway client.
    Its two network operations createPayment and getPayment are modelled as
    function parameters of type CreatePaymentRequest to Except String Payment
    (respectively String to Except String Payment); a thrown error is the
    Except.error case carrying the message (GatewayError).
  - orderService.ts (shipped inside src/order-service/src/orderService.test.ts):
    the OrderService class. Its private field orders (a JS Map from order id
    to Order) is modelled as an association list with JS-Map get/set semantics;
    Date.now is modelled as a strictly increasing Nat counter in the service
    state, one tick per new Date() call in the source; uuidv4 is modelled as an
    explicit String argument (the generated id); the setInterval watcher of
    pollPaymentStatus is modelled as a Watcher value plus a step function
    pollPaymentStatusStep, one application per interval tick, where
    clearInterval is modelled by setting the active flag to false.
All numbers handled by the core (quantity, price, amountCents) are modelled
as Int.
-/

/-- Status of an order, the union type of Order.status in orderService.ts. -/
inductive OrderStatus where
  | pending
  | completed
  | cancelled
  deriving DecidableEq, Repr

/-- Line item of an order, interface OrderItem in orderService.ts. -/
structure OrderItem where
  productId : String
  quantity : Int
  price : Int
  deriving DecidableEq, Repr

/-- An order, interface Order in orderService.ts. Timestamps are ticks of the
modelled Date counter. -/
structure Order where
  id : String
  items : List OrderItem
  totalAmount : Int
  currency : String
  status : OrderStatus
  paymentId : Option String
  createdAt : Nat
  updatedAt : Nat
  deriving DecidableEq, Repr

/-- A payment as returned by the gateway, interface Payment in
paymentsClient.ts. -/
structure Payment where
  id : String
  status : String
  amountCents : Int
  currency : String
  deriving DecidableEq, Repr

/-- Body of the createPayment call, interface CreatePaymentRequest in
paymentsClient.ts. -/
structure CreatePaymentRequest where
  amountCents : Int
  currency : String
  deriving DecidableEq, Repr

/-- The error thrown by createOrder when payment creation fails: in
orderService.ts it is new Error with the fixed message given at the throw
site. The spec names this error OrderCreationFailed. -/
inductive OrderServiceError where
  | orderCreationFailed (message : String)
  deriving DecidableEq, Repr

/-- Lookup in the order store, modelling JS Map.prototype.get (the orders
field of OrderService). -/
def storeGet : List (String × Order) → String → Option Order
  | [], _ => none
  | kv :: rest, id => if kv.1 = id then some kv.2 else storeGet rest id

/-- Update of the order store, modelling JS Map.prototype.set (the orders
field of OrderService): replace the entry with the given key when present,
otherwise append a new entry. -/
def storeSet : List (String × Order) → String → Order → List (String × Order)
  | [], id, o => [(id, o)]
  | kv :: rest, id, o =>
      if kv.1 = id then (id, o) :: rest else kv :: storeSet rest id o

/-- State of one OrderService instance: its orders map together with the
modelled Date counter. -/
structure ServiceState where
  orders : List (String × Order)
  clock : Nat
  deriving DecidableEq, Repr

/-- OrderService.getOrder: a pure lookup in the orders map. It returns an
Option rather than throwing, exactly as Map.get returns undefined for an
absent key. It takes the state only as input, so it has no side effects by
construction. -/
def getOrder (st : ServiceState) (id : String) : Option Order :=
  storeGet st.orders id

/-- OrderService.updateOrderStatus: if the order exists, overwrite its status
with the given value (with no check of the current status), refresh updatedAt
with the current Date (one clock tick), store it back, and return it;
otherwise return undefined (none) and leave the state unchanged. -/
def updateOrderStatus (st : ServiceState) (id : String) (status : OrderStatus) :
    Option Order × ServiceState :=
  match storeGet st.orders id with
  | some order =>
      let updated := { order with status := status, updatedAt := st.clock }
      (some updated,
       { st with orders := storeSet st.orders id updated, clock := st.clock + 1 })
  | none => (none, st)

/-- A running watcher, modelling the setInterval loop that
OrderService.pollPaymentStatus starts for a pair of order id and payment id.
The active flag is true until clearInterval is called. -/
structure Watcher where
  orderId : String
  paymentId : String
  active : Bool
  deriving DecidableEq, Repr

/-- One interval tick of the watcher body in OrderService.pollPaymentStatus:
call getPayment; on status completed, update the order to completed and clear
the interval; on status failed or cancelled, update the order to cancelled and
clear the interval; on any other status do nothing; if getPayment throws,
clear the interval without touching the order. An inactive watcher (interval
already cleared) does nothing. -/
def pollPaymentStatusStep (getPayment : String → Except String Payment)
    (st : ServiceState) (w : Watcher) : ServiceState × Watcher :=
  if w.active then
    match getPayment w.paymentId with
    | Except.ok payment =>
        if payment.status = "completed" then
          ((updateOrderStatus st w.orderId OrderStatus.completed).2,
           { w with active := false })
        else if payment.status = "failed" ∨ payment.status = "cancelled" then
          ((updateOrderStatus st w.orderId OrderStatus.cancelled).2,
           { w with active := false })
        else
          (st, w)
    | Except.error _ => (st, { w with active := false })
  else
    (st, w)

/-- A run of successive interval ticks of one watcher, each tick polling the
gateway in its then-current state (one getPayment view per tick). -/
def pollRun (polls : List (String → Except String Payment))
    (st : ServiceState) (w : Watcher) : ServiceState × Watcher :=
  polls.foldl (fun sw g => pollPaymentStatusStep g sw.1 sw.2) (st, w)

/-- Everything observable about one createOrder call: the value returned or
the error thrown, the service state afterwards, the watcher started by
pollPaymentStatus (if any), and the request body sent to the gateway. -/
structure CreateOrderResult where
  result : Except OrderServiceError Order
  state : ServiceState
  watcher : Option Watcher
  request : CreatePaymentRequest
  deriving Repr

/-- OrderService.createOrder, with the gateway call createPayment passed as a
function and the uuidv4 output passed as the uuid argument. The source makes
two new Date() calls when building the order literal (createdAt then
updatedAt), hence the two clock ticks; the store insert of the pending order
happens before the gateway call; on gateway success paymentId is assigned and
the order stored again and pollPaymentStatus is started; on gateway failure
the status is assigned cancelled, the order stored again, and the fixed Error
is thrown. -/
def createOrder (createPayment : CreatePaymentRequest → Except String Payment)
    (uuid : String) (st : ServiceState)
    (items : List OrderItem) (currency : String) : CreateOrderResult :=
  let id := uuid
  let totalAmount := items.foldl (fun sum item => sum + item.quantity * item.price) 0
  let newOrder : Order :=
    { id := id, items := items, totalAmount := totalAmount, currency := currency,
      status := OrderStatus.pending, paymentId := none,
      createdAt := st.clock, updatedAt := st.clock + 1 }
  let st1 : ServiceState :=
    { orders := storeSet st.orders id newOrder, clock := st.clock + 2 }
  let request : CreatePaymentRequest :=
    { amountCents := totalAmount, currency := currency }
  match createPayment request with
  | Except.ok payment =>
      let withPayment := { newOrder with paymentId := some payment.id }
      { result := Except.ok withPayment,
        state := { st1 with orders := storeSet st1.orders id withPayment },
        watcher := some { orderId := id, paymentId := payment.id, active := true },
        request := request }
  | Except.error _ =>
      let cancelledOrder := { newOrder with status := OrderStatus.cancelled }
      { result := Except.error
          (OrderServiceError.orderCreationFailed "Payment failed, order cancelled."),
        state := { st1 with orders := storeSet st1.orders id cancelledOrder },
        watcher := none,
        request := request }

/-- Specification-side total of an item list: the sum over the items of
quantity times price. -/
def specTotal (items : List OrderItem) : Int :=
  (items.map (fun item => item.quantity * item.price)).sum

/-- Reading the store right after a set at another key is unchanged; at the
same key it yields exactly the value just set. -/
theorem storeGet_storeSet (s : List (String × Order)) (id2 : String) (o : Order)
    (id : String) :
    storeGet (storeSet s id2 o) id = if id2 = id then some o else storeGet s id := by
  induction s with
  | nil =>
      simp [storeSet, storeGet]
  | cons kv rest ih =>
      simp only [storeSet]
      by_cases h2 : kv.1 = id2
      · subst h2
        simp only [if_pos rfl, storeGet]
        by_cases h : kv.1 = id
        · subst h
          simp
        · simp [h]
      · simp only [if_neg h2, storeGet]
        by_cases h : kv.1 = id
        · subst h
          have : ¬ id2 = kv.1 := fun hc => h2 hc.symm
          simp [this]
        · simp [h, ih]

/-- Setting any key preserves the presence of every key already present. -/
theorem storeGet_storeSet_isSome (s : List (String × Order)) (id2 : String)
    (o : Order) (id : String) (h : (storeGet s id).isSome = true) :
    (storeGet (storeSet s id2 o) id).isSome = true := by
  rw [storeGet_storeSet]
  split <;> simp [h]

/-- A key matching no entry of the store is absent. -/
theorem storeGet_eq_none_of_not_mem (s : List (String × Order)) (id : String)
    (h : id ∉ s.map Prod.fst) : storeGet s id = none := by
  induction s with
  | nil => rfl
  | cons kv rest ih =>
      simp only [List.map_cons, List.mem_cons] at h
      push_neg at h
      have hne : kv.1 ≠ id := Ne.symm h.1
      simp only [storeGet, if_neg hne]
      exact ih h.2

/-- The fold the source uses to compute totalAmount equals the
specification-side sum. -/
theorem foldl_eq_specTotal (items : List OrderItem) (a : Int) :
    items.foldl (fun sum item => sum + item.quantity * item.price) a
      = a + specTotal items := by
  induction items generalizing a with
  | nil => simp [specTotal]
  | cons i t ih =>
      simp only [List.foldl_cons, specTotal, List.map_cons, List.sum_cons] at *
      rw [ih]
      ring

/-- An inactive watcher does nothing on a tick. -/
theorem pollPaymentStatusStep_inactive (g : String → Except String Payment)
    (st : ServiceState) (w : Watcher) (h : w.active = false) :
    pollPaymentStatusStep g st w = (st, w) := by
  simp [pollPaymentStatusStep, h]

/-- An inactive watcher does nothing over any run of ticks. -/
theorem pollRun_inactive (polls : List (String → Except String Payment))
    (st : ServiceState) (w : Watcher) (h : w.active = false) :
    pollRun polls st w = (st, w) := by
  induction polls generalizing st w with
  | nil => rfl
  | cons g rest ih =>
      simp only [pollRun, List.foldl_cons]
      rw [show pollPaymentStatusStep g st w = (st, w) from
        pollPaymentStatusStep_inactive g st w h]
      exact ih st w h

/-- Reading back the updated id after updateOrderStatus yields the updated
order when it exists, and none otherwise. -/
theorem getOrder_updateOrderStatus (st : ServiceState) (id : String)
    (status : OrderStatus) :
    getOrder (updateOrderStatus st id status).2 id
      = (getOrder st id).map
          (fun o => { o with status := status, updatedAt := st.clock }) := by
  unfold getOrder updateOrderStatus
  cases hs : storeGet st.orders id with
  | some o => simp [hs, storeGet_storeSet]
  | none => simp [hs]

/-- The order returned by updateOrderStatus is the stored order with the new
status and refreshed updatedAt, when it exists. -/
theorem updateOrderStatus_fst (st : ServiceState) (id : String)
    (status : OrderStatus) :
    (updateOrderStatus st id status).1
      = (getOrder st id).map
          (fun o => { o with status := status, updatedAt := st.clock }) := by
  unfold getOrder updateOrderStatus
  cases hs : storeGet st.orders id with
  | some o => simp [hs]
  | none => simp [hs]

/-- When the id is absent updateOrderStatus does nothing at all. -/
theorem updateOrderStatus_not_found (st : ServiceState) (id : String)
    (status : OrderStatus) (h : getOrder st id = none) :
    updateOrderStatus st id status = (none, st) := by
  unfold getOrder at h
  unfold updateOrderStatus
  rw [h]

/-- updateOrderStatus preserves the presence of every key. -/
theorem updateOrderStatus_isSome (st : ServiceState) (id2 : String)
    (status : OrderStatus) (id : String) (h : (getOrder st id).isSome = true) :
    (getOrder (updateOrderStatus st id2 status).2 id).isSome = true := by
  unfold getOrder at h ⊢
  unfold updateOrderStatus
  cases hs : storeGet st.orders id2 with
  | some o => exact storeGet_storeSet_isSome _ _ _ _ h
  | none => exact h

/-- The state after one watcher tick is either unchanged or the result of one
updateOrderStatus call on the watched order id. -/
theorem pollPaymentStatusStep_state_cases (g : String → Except String Payment)
    (st : ServiceState) (w : Watcher) :
    (pollPaymentStatusStep g st w).1 = st
      ∨ (pollPaymentStatusStep g st w).1
          = (updateOrderStatus st w.orderId OrderStatus.completed).2
      ∨ (pollPaymentStatusStep g st w).1
          = (updateOrderStatus st w.orderId OrderStatus.cancelled).2 := by
  unfold pollPaymentStatusStep
  by_cases hact : w.active
  · simp only [hact, if_true]
    cases hg : g w.paymentId with
    | ok p =>
        by_cases hc : p.status = "completed"
        · simp [hc]
        · by_cases hf : p.status = "failed" ∨ p.status = "cancelled"
          · simp [hc, hf]
          · simp [hc, hf]
    | error e => simp
  · simp [hact]

/-- C3: for every item list submitted to createOrder, the totalAmount of the
created order (both as stored under the generated id and as carried by the
returned order, when one is returned) equals the sum over the items of
quantity times price, and this total is computed before any call to the
payment gateway: the request sent to the gateway already carries exactly this
total, whatever the gateway later answers. -/
theorem createOrder_totalAmount
    (createPayment : CreatePaymentRequest → Except String Payment)
    (uuid : String) (st : ServiceState) (items : List OrderItem)
    (currency : String) :
    (createOrder createPayment uuid st items currency).request
      = { amountCents := specTotal items, currency := currency }
    ∧ (getOrder (createOrder createPayment uuid st items currency).state uuid).map
        Order.totalAmount = some (specTotal items)
    ∧ ((createOrder createPayment uuid st items currency).result.toOption.map
        Order.totalAmount).getD (specTotal items) = specTotal items := by
  have htot := foldl_eq_specTotal items 0
  rw [zero_add] at htot
  unfold createOrder getOrder
  simp only [htot]
  cases hg : createPayment { amountCents := specTotal items, currency := currency } with
  | ok p => simp [storeGet_storeSet, Except.toOption]
  | error e => simp [storeGet_storeSet, Except.toOption]

/-- C6: for every order id present in the store and every status value,
including when the current status is terminal, updateOrderStatus overwrites
the status with the given value and refreshes updatedAt with the current
clock; the updated order is both returned and stored; for an id not in the
store it returns none and leaves the state untouched. -/
theorem updateOrderStatus_overwrites (st : ServiceState) (id : String)
    (status : OrderStatus) :
    (updateOrderStatus st id status).1
      = (getOrder st id).map
          (fun o => { o with status := status, updatedAt := st.clock })
    ∧ getOrder (updateOrderStatus st id status).2 id
      = (getOrder st id).map
          (fun o => { o with status := status, updatedAt := st.clock })
    ∧ (getOrder st id = none → updateOrderStatus st id status = (none, st)) := by
  exact ⟨updateOrderStatus_fst st id status,
         getOrder_updateOrderStatus st id status,
         fun h => updateOrderStatus_not_found st id status h⟩

/-- C6 witness: on a store holding one order in the terminal status completed,
updateOrderStatus happily overwrites it back to pending and refreshes
updatedAt to the current clock. -/
theorem updateOrderStatus_overwrites_witness :
    (updateOrderStatus
        { orders := [("order-1",
            { id := "order-1", items := [], totalAmount := 0, currency := "USD",
              status := OrderStatus.completed, paymentId := some "pay-1",
              createdAt := 0, updatedAt := 1 })], clock := 7 }
        "order-1" OrderStatus.pending).1
      = some { id := "order-1", items := [], totalAmount := 0, currency := "USD",
               status := OrderStatus.pending, paymentId := some "pay-1",
               createdAt := 0, updatedAt := 7 } := by
  have h := updateOrderStatus_overwrites
    { orders := [("order-1",
        { id := "order-1", items := [], totalAmount := 0, currency := "USD",
          status := OrderStatus.completed, paymentId := some "pay-1",
          createdAt := 0, updatedAt := 1 })], clock := 7 }
    "order-1" OrderStatus.pending
  rw [h.1]
  rfl

/-- C8: getOrder on an id matching no stored key returns none (not found)
rather than throwing, and getOrder returns the current snapshot of the store:
right after a status update (the mutation a watcher applies), it returns
exactly the updated order. getOrder is a function of the state alone and
returns no new state, so it has no side effects by construction. -/
theorem getOrder_not_found_and_snapshot (st : ServiceState) (id : String)
    (status : OrderStatus) :
    (id ∉ st.orders.map Prod.fst → getOrder st id = none)
    ∧ getOrder (updateOrderStatus st id status).2 id
      = (getOrder st id).map
          (fun o => { o with status := status, updatedAt := st.clock }) := by
  exact ⟨fun h => storeGet_eq_none_of_not_mem st.orders id h,
         getOrder_updateOrderStatus st id status⟩

/-- C8 witness: on a store holding only order-1, getOrder on the unknown id
order-2 returns none, and after an update of order-1 to cancelled getOrder
reports the updated snapshot. -/
theorem getOrder_not_found_and_snapshot_witness :
    getOrder
      { orders := [("order-1",
          { id := "order-1", items := [], totalAmount := 0, currency := "USD",
            status := OrderStatus.pending, paymentId := none,
            createdAt := 0, updatedAt := 1 })], clock := 5 }
      "order-2" = none := by
  have h := getOrder_not_found_and_snapshot
    { orders := [("order-1",
        { id := "order-1", items := [], totalAmount := 0, currency := "USD",
          status := OrderStatus.pending, paymentId := none,
          createdAt := 0, updatedAt := 1 })], clock := 5 }
    "order-2" OrderStatus.cancelled
  exact h.1 (by decide)

/-- C4: when the gateway call succeeds, createOrder returns an order in
pending status whose paymentId is exactly the id of the created payment
(non-empty whenever the gateway issued a non-empty payment id) and whose own
id is the generated uuid (non-empty whenever the generator issued a non-empty
id); the very same order is already stored and visible to getOrder in the
resulting state, while its status is still pending, before any watcher tick
could settle the payment. -/
theorem createOrder_success_pending
    (createPayment : CreatePaymentRequest → Except String Payment)
    (uuid : String) (st : ServiceState) (items : List OrderItem)
    (currency : String) (p : Payment)
    (hok : createPayment { amountCents := specTotal items, currency := currency }
      = Except.ok p)
    (hpid : p.id ≠ "") (huuid : uuid ≠ "") :
    ∃ o, (createOrder createPayment uuid st items currency).result = Except.ok o
      ∧ o.status = OrderStatus.pending
      ∧ o.paymentId = some p.id
      ∧ p.id ≠ ""
      ∧ o.id = uuid
      ∧ uuid ≠ ""
      ∧ getOrder (createOrder createPayment uuid st items currency).state uuid
          = some o := by
  have htot := foldl_eq_specTotal items 0
  rw [zero_add] at htot
  refine ⟨{ id := uuid, items := items, totalAmount := specTotal items,
            currency := currency, status := OrderStatus.pending,
            paymentId := some p.id, createdAt := st.clock,
            updatedAt := st.clock + 1 }, ?_⟩
  unfold createOrder getOrder
  simp only [htot, hok]
  simp [storeGet_storeSet, hpid, huuid]

/-- C4 witness: a concrete successful run with one item of quantity 2 at
price 50 yields a pending stored order with paymentId pay-1 and id order-1. -/
theorem createOrder_success_pending_witness :
    ∃ o, (createOrder
        (fun _ => Except.ok
          { id := "pay-1", status := "pending", amountCents := 100, currency := "USD" })
        "order-1" { orders := [], clock := 0 }
        [{ productId := "p1", quantity := 2, price := 50 }] "USD").result
      = Except.ok o
      ∧ o.status = OrderStatus.pending
      ∧ o.paymentId = some "pay-1"
      ∧ getOrder (createOrder
          (fun _ => Except.ok
            { id := "pay-1", status := "pending", amountCents := 100, currency := "USD" })
          "order-1" { orders := [], clock := 0 }
          [{ productId := "p1", quantity := 2, price := 50 }] "USD").state "order-1"
          = some o := by
  obtain ⟨o, h1, h2, h3, _, _, _, h4⟩ := createOrder_success_pending
    (fun _ => Except.ok
      { id := "pay-1", status := "pending", amountCents := 100, currency := "USD" })
    "order-1" { orders := [], clock := 0 }
    [{ productId := "p1", quantity := 2, price := 50 }] "USD"
    { id := "pay-1", status := "pending", amountCents := 100, currency := "USD" }
    rfl (by decide) (by decide)
  exact ⟨o, h1, h2, h3, h4⟩

/-- C2 counterexample: the error thrown by createOrder on gateway failure is
the fixed value orderCreationFailed with message Payment failed, order
cancelled. It is identical for two different gateway errors, so it carries no
information about, and in particular does not wrap, the originating gateway
error (the source logs the gateway error and throws a fresh Error with a
constant message and no cause). -/
theorem createOrder_error_does_not_wrap :
    (createOrder (fun _ => Except.error "connect ECONNREFUSED") "order-1"
        { orders := [], clock := 0 } [] "USD").result
      = (createOrder (fun _ => Except.error "Request timed out") "order-1"
          { orders := [], clock := 0 } [] "USD").result
    ∧ (createOrder (fun _ => Except.error "connect ECONNREFUSED") "order-1"
        { orders := [], clock := 0 } [] "USD").result
      = Except.error
          (OrderServiceError.orderCreationFailed "Payment failed, order cancelled.")
    ∧ ("connect ECONNREFUSED" : String) ≠ "Request timed out" := by
  exact ⟨rfl, rfl, by decide⟩

/-- C2 as amended: when the gateway call fails, createOrder fails with the
OrderCreationFailed error (the fixed message Payment failed, order cancelled.,
distinct from the gateway error, which is only logged, not wrapped), and a
subsequent getOrder on the generated id returns an order in cancelled status:
the order remains in the store despite the failure. -/
theorem createOrder_failure_cancelled
    (createPayment : CreatePaymentRequest → Except String Payment)
    (uuid : String) (st : ServiceState) (items : List OrderItem)
    (currency : String) (e : String)
    (hfail : createPayment { amountCents := specTotal items, currency := currency }
      = Except.error e) :
    (createOrder createPayment uuid st items currency).result
      = Except.error
          (OrderServiceError.orderCreationFailed "Payment failed, order cancelled.")
    ∧ (getOrder (createOrder createPayment uuid st items currency).state uuid).map
        Order.status = some OrderStatus.cancelled
    ∧ ((getOrder (createOrder createPayment uuid st items currency).state uuid).isSome
        = true) := by
  have htot := foldl_eq_specTotal items 0
  rw [zero_add] at htot
  unfold createOrder getOrder
  simp only [htot, hfail]
  simp [storeGet_storeSet]

/-- C2 witness: a concrete failing run throws the fixed error and leaves a
retrievable cancelled order behind. -/
theorem createOrder_failure_cancelled_witness :
    (createOrder (fun _ => Except.error "boom") "order-1"
        { orders := [], clock := 0 }
        [{ productId := "p1", quantity := 1, price := 100 }] "USD").result
      = Except.error
          (OrderServiceError.orderCreationFailed "Payment failed, order cancelled.")
    ∧ (getOrder (createOrder (fun _ => Except.error "boom") "order-1"
          { orders := [], clock := 0 }
          [{ productId := "p1", quantity := 1, price := 100 }] "USD").state
        "order-1").map Order.status = some OrderStatus.cancelled := by
  have h := createOrder_failure_cancelled (fun _ => Except.error "boom") "order-1"
    { orders := [], clock := 0 }
    [{ productId := "p1", quantity := 1, price := 100 }] "USD" "boom" rfl
  exact ⟨h.1, h.2.1⟩

/-- C5 counterexample: in a concrete successful run starting at clock 0, the
creation of the order literal consumes the two Date ticks (createdAt 0,
updatedAt 1) and the gateway success path then assigns paymentId and stores
the order again without touching updatedAt: the returned (and stored) order
still carries updatedAt 1 from creation although the paymentId mutation
happened at clock 2 (the final clock). A refresh at the mutation, as
updateOrderStatus performs one, would have assigned the current clock. -/
theorem createOrder_updatedAt_not_refreshed :
    (createOrder
        (fun _ => Except.ok
          { id := "pay-1", status := "pending", amountCents := 100, currency := "USD" })
        "order-1" { orders := [], clock := 0 }
        [{ productId := "p1", quantity := 2, price := 50 }] "USD").result
      = Except.ok
          { id := "order-1",
            items := [{ productId := "p1", quantity := 2, price := 50 }],
            totalAmount := 100, currency := "USD",
            status := OrderStatus.pending, paymentId := some "pay-1",
            createdAt := 0, updatedAt := 1 }
    ∧ (createOrder
        (fun _ => Except.ok
          { id := "pay-1", status := "pending", amountCents := 100, currency := "USD" })
        "order-1" { orders := [], clock := 0 }
        [{ productId := "p1", quantity := 2, price := 50 }] "USD").state.clock = 2 := by
  exact ⟨rfl, rfl⟩

/-- C5 as amended: when the gateway call succeeds, createOrder sets paymentId
and persists the updated order in the store before returning, but it does not
refresh updatedAt on this paymentId mutation: the returned and stored order
keeps the updatedAt assigned at creation (the second Date tick, clock + 1),
while the mutation itself happens after both creation ticks (the final clock
is clock + 2). Only updateOrderStatus refreshes updatedAt. -/
theorem createOrder_success_keeps_creation_updatedAt
    (createPayment : CreatePaymentRequest → Except String Payment)
    (uuid : String) (st : ServiceState) (items : List OrderItem)
    (currency : String) (p : Payment)
    (hok : createPayment { amountCents := specTotal items, currency := currency }
      = Except.ok p) :
    ∃ o, (createOrder createPayment uuid st items currency).result = Except.ok o
      ∧ o.paymentId = some p.id
      ∧ getOrder (createOrder createPayment uuid st items currency).state uuid
          = some o
      ∧ o.createdAt = st.clock
      ∧ o.updatedAt = st.clock + 1
      ∧ (createOrder createPayment uuid st items currency).state.clock
          = st.clock + 2 := by
  have htot := foldl_eq_specTotal items 0
  rw [zero_add] at htot
  refine ⟨{ id := uuid, items := items, totalAmount := specTotal items,
            currency := currency, status := OrderStatus.pending,
            paymentId := some p.id, createdAt := st.clock,
            updatedAt := st.clock + 1 }, ?_⟩
  unfold createOrder getOrder
  simp only [htot, hok]
  simp [storeGet_storeSet]

/-- C5 amended witness: the concrete run of the counterexample, obtained
through the amended theorem. -/
theorem createOrder_success_keeps_creation_updatedAt_witness :
    ∃ o, (createOrder
        (fun _ => Except.ok
          { id := "pay-1", status := "pending", amountCents := 100, currency := "USD" })
        "order-1" { orders := [], clock := 0 }
        [{ productId := "p1", quantity := 2, price := 50 }] "USD").result
      = Except.ok o
      ∧ o.paymentId = some "pay-1"
      ∧ o.createdAt = 0
      ∧ o.updatedAt = 1 := by
  obtain ⟨o, h1, h2, _, h4, h5, _⟩ := createOrder_success_keeps_creation_updatedAt
    (fun _ => Except.ok
      { id := "pay-1", status := "pending", amountCents := 100, currency := "USD" })
    "order-1" { orders := [], clock := 0 }
    [{ productId := "p1", quantity := 2, price := 50 }] "USD"
    { id := "pay-1", status := "pending", amountCents := 100, currency := "USD" }
    rfl
  exact ⟨o, h1, h2, h4, h5⟩

/-- C10: createOrder performs no validation of its inputs. Called with the
empty item list and the empty currency string it does not reject: it computes
totalAmount 0, stores a pending order under the generated id, and sends the
gateway a payment request of amount 0 with the empty currency passed through
unchecked (shown here on a run whose gateway accepts the request; the request
itself is sent whatever the gateway does). -/
theorem createOrder_no_validation
    (createPayment : CreatePaymentRequest → Except String Payment)
    (uuid : String) (st : ServiceState) (p : Payment)
    (hok : createPayment { amountCents := 0, currency := "" } = Except.ok p) :
    (createOrder createPayment uuid st [] "").request
      = { amountCents := 0, currency := "" }
    ∧ ∃ o, (createOrder createPayment uuid st [] "").result = Except.ok o
        ∧ o.totalAmount = 0
        ∧ o.currency = ""
        ∧ o.status = OrderStatus.pending
        ∧ getOrder (createOrder createPayment uuid st [] "").state uuid = some o := by
  refine ⟨?_, { id := uuid, items := [], totalAmount := 0, currency := "",
                status := OrderStatus.pending, paymentId := some p.id,
                createdAt := st.clock, updatedAt := st.clock + 1 }, ?_⟩
  · unfold createOrder
    simp only [List.foldl_nil]
    cases hg : createPayment { amountCents := 0, currency := "" } <;> simp
  · unfold createOrder getOrder
    simp only [List.foldl_nil, hok]
    simp [storeGet_storeSet]

/-- C10 witness: a concrete run with empty items and empty currency stores a
pending order of total 0 and sends the gateway the request of amount 0. -/
theorem createOrder_no_validation_witness :
    (createOrder
        (fun _ => Except.ok
          { id := "pay-1", status := "pending", amountCents := 0, currency := "" })
        "order-1" { orders := [], clock := 0 } [] "").request
      = { amountCents := 0, currency := "" } := by
  have h := createOrder_no_validation
    (fun _ => Except.ok
      { id := "pay-1", status := "pending", amountCents := 0, currency := "" })
    "order-1" { orders := [], clock := 0 }
    { id := "pay-1", status := "pending", amountCents := 0, currency := "" }
    rfl
  exact h.1

/-- C1: for an order present in the store with a running (active) watcher,
a tick whose getPayment poll returns a payment with status completed stores
the order with status completed (updatedAt refreshed to the current clock)
and clears the interval, and a tick whose poll returns status failed or
cancelled stores the order with status cancelled and clears the interval; in
either case the watcher is inactive afterwards and every further run of ticks,
whatever the gateway then answers, changes neither the state nor the watcher:
no watcher activity ever occurs for that order again. -/
theorem pollPaymentStatus_terminal (g : String → Except String Payment)
    (st : ServiceState) (w : Watcher) (p : Payment) (o : Order)
    (hact : w.active = true)
    (horder : getOrder st w.orderId = some o)
    (hpoll : g w.paymentId = Except.ok p) :
    (p.status = "completed" →
        getOrder (pollPaymentStatusStep g st w).1 w.orderId
          = some { o with status := OrderStatus.completed, updatedAt := st.clock }
        ∧ (pollPaymentStatusStep g st w).2.active = false
        ∧ ∀ polls, pollRun polls (pollPaymentStatusStep g st w).1
            (pollPaymentStatusStep g st w).2
            = ((pollPaymentStatusStep g st w).1, (pollPaymentStatusStep g st w).2))
    ∧ ((p.status = "failed" ∨ p.status = "cancelled") →
        getOrder (pollPaymentStatusStep g st w).1 w.orderId
          = some { o with status := OrderStatus.cancelled, updatedAt := st.clock }
        ∧ (pollPaymentStatusStep g st w).2.active = false
        ∧ ∀ polls, pollRun polls (pollPaymentStatusStep g st w).1
            (pollPaymentStatusStep g st w).2
            = ((pollPaymentStatusStep g st w).1, (pollPaymentStatusStep g st w).2)) := by
  constructor
  · intro hc
    have hstep : pollPaymentStatusStep g st w
        = ((updateOrderStatus st w.orderId OrderStatus.completed).2,
           { w with active := false }) := by
      unfold pollPaymentStatusStep
      simp [hact, hpoll, hc]
    rw [hstep]
    refine ⟨?_, rfl, ?_⟩
    · rw [getOrder_updateOrderStatus, horder]
      rfl
    · intro polls
      exact pollRun_inactive polls _ _ rfl
  · intro hc
    have hnc : ¬ p.status = "completed" := by
      rcases hc with hc | hc <;> rw [hc] <;> decide
    have hstep : pollPaymentStatusStep g st w
        = ((updateOrderStatus st w.orderId OrderStatus.cancelled).2,
           { w with active := false }) := by
      unfold pollPaymentStatusStep
      simp [hact, hpoll, hnc, hc]
    rw [hstep]
    refine ⟨?_, rfl, ?_⟩
    · rw [getOrder_updateOrderStatus, horder]
      rfl
    · intro polls
      exact pollRun_inactive polls _ _ rfl

/-- C1 witness: a concrete active watcher over a stored pending order whose
poll returns a completed payment yields the order stored as completed and an
inactive watcher. -/
theorem pollPaymentStatus_terminal_witness :
    getOrder (pollPaymentStatusStep
        (fun _ => Except.ok
          { id := "pay-1", status := "completed", amountCents := 100, currency := "USD" })
        { orders := [("order-1",
            { id := "order-1", items := [], totalAmount := 100, currency := "USD",
              status := OrderStatus.pending, paymentId := some "pay-1",
              createdAt := 0, updatedAt := 1 })], clock := 2 }
        { orderId := "order-1", paymentId := "pay-1", active := true }).1 "order-1"
      = some { id := "order-1", items := [], totalAmount := 100, currency := "USD",
               status := OrderStatus.completed, paymentId := some "pay-1",
               createdAt := 0, updatedAt := 2 }
    ∧ (pollPaymentStatusStep
        (fun _ => Except.ok
          { id := "pay-1", status := "completed", amountCents := 100, currency := "USD" })
        { orders := [("order-1",
            { id := "order-1", items := [], totalAmount := 100, currency := "USD",
              status := OrderStatus.pending, paymentId := some "pay-1",
              createdAt := 0, updatedAt := 1 })], clock := 2 }
        { orderId := "order-1", paymentId := "pay-1", active := true }).2.active
      = false := by
  have h := pollPaymentStatus_terminal
    (fun _ => Except.ok
      { id := "pay-1", status := "completed", amountCents := 100, currency := "USD" })
    { orders := [("order-1",
        { id := "order-1", items := [], totalAmount := 100, currency := "USD",
          status := OrderStatus.pending, paymentId := some "pay-1",
          createdAt := 0, updatedAt := 1 })], clock := 2 }
    { orderId := "order-1", paymentId := "pay-1", active := true }
    { id := "pay-1", status := "completed", amountCents := 100, currency := "USD" }
    { id := "order-1", items := [], totalAmount := 100, currency := "USD",
      status := OrderStatus.pending, paymentId := some "pay-1",
      createdAt := 0, updatedAt := 1 }
    rfl (by decide) rfl
  exact ⟨(h.1 rfl).1, (h.1 rfl).2.1⟩

/-- C7: when the getPayment poll of an active watcher raises a gateway error,
the tick leaves the service state exactly as it was (the order keeps whatever
status it had) and clears the interval; the watcher is then permanently
stopped: every further run of ticks, whatever the gateway answers, changes
nothing. No retry or backoff exists. -/
theorem pollPaymentStatus_error_stops (g : String → Except String Payment)
    (st : ServiceState) (w : Watcher) (e : String)
    (hact : w.active = true) (herr : g w.paymentId = Except.error e) :
    (pollPaymentStatusStep g st w).1 = st
    ∧ (pollPaymentStatusStep g st w).2 = { w with active := false }
    ∧ ∀ polls, pollRun polls (pollPaymentStatusStep g st w).1
        (pollPaymentStatusStep g st w).2 = (st, { w with active := false }) := by
  have hstep : pollPaymentStatusStep g st w = (st, { w with active := false }) := by
    unfold pollPaymentStatusStep
    simp [hact, herr]
  refine ⟨by rw [hstep], by rw [hstep], ?_⟩
  intro polls
  rw [hstep]
  exact pollRun_inactive polls st { w with active := false } rfl

/-- C7 witness: a concrete active watcher over a stored pending order whose
poll errors leaves the state untouched and the watcher inactive. -/
theorem pollPaymentStatus_error_stops_witness :
    (pollPaymentStatusStep (fun _ => Except.error "getaddrinfo ENOTFOUND")
        { orders := [("order-1",
            { id := "order-1", items := [], totalAmount := 100, currency := "USD",
              status := OrderStatus.pending, paymentId := some "pay-1",
              createdAt := 0, updatedAt := 1 })], clock := 2 }
        { orderId := "order-1", paymentId := "pay-1", active := true }).1
      = { orders := [("order-1",
            { id := "order-1", items := [], totalAmount := 100, currency := "USD",
              status := OrderStatus.pending, paymentId := some "pay-1",
              createdAt := 0, updatedAt := 1 })], clock := 2 }
    ∧ (pollPaymentStatusStep (fun _ => Except.error "getaddrinfo ENOTFOUND")
        { orders := [("order-1",
            { id := "order-1", items := [], totalAmount := 100, currency := "USD",
              status := OrderStatus.pending, paymentId := some "pay-1",
              createdAt := 0, updatedAt := 1 })], clock := 2 }
        { orderId := "order-1", paymentId := "pay-1", active := true }).2
      = { orderId := "order-1", paymentId := "pay-1", active := false } := by
  have h := pollPaymentStatus_error_stops (fun _ => Except.error "getaddrinfo ENOTFOUND")
    { orders := [("order-1",
        { id := "order-1", items := [], totalAmount := 100, currency := "USD",
          status := OrderStatus.pending, paymentId := some "pay-1",
          createdAt := 0, updatedAt := 1 })], clock := 2 }
    { orderId := "order-1", paymentId := "pay-1", active := true }
    "getaddrinfo ENOTFOUND" rfl rfl
  exact ⟨h.1, h.2.1⟩

/-- C9: no operation of the service ever removes an order from the store:
every id present before a createOrder call (whatever the gateway answers),
before an updateOrderStatus call on any id, or before a watcher tick, is
still present afterwards, so a cancelled or completed order stays retrievable
by getOrder for the lifetime of the store. -/
theorem orders_never_deleted
    (createPayment : CreatePaymentRequest → Except String Payment)
    (getPayment : String → Except String Payment)
    (uuid : String) (st : ServiceState) (items : List OrderItem)
    (currency : String) (id id2 : String) (status : OrderStatus) (w : Watcher)
    (h : (getOrder st id).isSome = true) :
    ((getOrder (createOrder createPayment uuid st items currency).state id).isSome
      = true)
    ∧ ((getOrder (updateOrderStatus st id2 status).2 id).isSome = true)
    ∧ ((getOrder (pollPaymentStatusStep getPayment st w).1 id).isSome = true) := by
  refine ⟨?_, updateOrderStatus_isSome st id2 status id h, ?_⟩
  · unfold createOrder getOrder
    unfold getOrder at h
    cases hg : createPayment
        { amountCents :=
            items.foldl (fun sum item => sum + item.quantity * item.price) 0,
          currency := currency } with
    | ok p =>
        simp only [hg]
        exact storeGet_storeSet_isSome _ _ _ _ (storeGet_storeSet_isSome _ _ _ _ h)
    | error e =>
        simp only [hg]
        exact storeGet_storeSet_isSome _ _ _ _ (storeGet_storeSet_isSome _ _ _ _ h)
  · rcases pollPaymentStatusStep_state_cases getPayment st w with hc | hc | hc <;>
      rw [hc]
    · exact h
    · exact updateOrderStatus_isSome st w.orderId OrderStatus.completed id h
    · exact updateOrderStatus_isSome st w.orderId OrderStatus.cancelled id h

/-- C9 witness: a store holding a cancelled order keeps it retrievable across
a createOrder of a fresh order, an updateOrderStatus of another id, and a
watcher tick. -/
theorem orders_never_deleted_witness :
    ((getOrder (createOrder (fun _ => Except.error "boom") "order-2"
        { orders := [("order-1",
            { id := "order-1", items := [], totalAmount := 0, currency := "USD",
              status := OrderStatus.cancelled, paymentId := none,
              createdAt := 0, updatedAt := 1 })], clock := 2 }
        [] "USD").state "order-1").isSome = true) := by
  have h := orders_never_deleted (fun _ => Except.error "boom")
    (fun _ => Except.error "boom") "order-2"
    { orders := [("order-1",
        { id := "order-1", items := [], totalAmount := 0, currency := "USD",
          status := OrderStatus.cancelled, paymentId := none,
          createdAt := 0, updatedAt := 1 })], clock := 2 }
    [] "USD" "order-1" "order-3" OrderStatus.pending
    { orderId := "order-1", paymentId := "pay-1", active := false }
    (by decide)
  exact h.1
